import Mathlib

/-!
Shallow embedding of the `fasted` package (modules `fasted/idmemo.py`,
`fasted/utils.py`, `fasted/selfdependent.py`).

Modelling conventions:
* Python values of the owner type are drawn from a type `V`; a Python value
  that may be `None` is an `Option V`, with `Option.none` playing `None`.
* Positional argument tuples are an opaque type `A` (the wrappers forward
  them unchanged).
* Keyword argument dicts are association lists `Kwargs V` with unique keys
  and insertion order, each value a possibly-`None` Python value.
* Python exceptions live in one inductive `PyErr`; a raising computation is
  `Except PyErr _`.  `missingOwner` is `RuntimeError("Missing self argument.")`,
  `emptyMemo` is the `KeyError` raised by `IdMemo.value`, `noSelfParam` the
  `ValueError` raised by `replace_self_signature`, and `user c` an arbitrary
  exception raised by wrapped user code.
* A generator function, when called, returns a generator object without
  running its body; we model the call as `Except PyErr (GenRun R)` whose
  `Except.ok` payload is the complete observable iteration behaviour
  (`GenRun`): the values yielded in order, then either normal exhaustion
  (`stop = none`) or a raised exception.  Likewise an `async def` function
  returns a coroutine object at call time; the awaited outcome is the inner
  `Except`.
-/

namespace Fasted

/-- Python exceptions relevant to this package. -/
inductive PyErr where
  | missingOwner
  | emptyMemo
  | noSelfParam
  | user (code : Nat)
deriving DecidableEq, Repr

/-- A keyword-argument dict: association list of names to possibly-`None`
Python values. -/
abbrev Kwargs (V : Type) := List (String × Option V)

/-- The complete observable behaviour of iterating a (sync or async)
generator object: the values it yields in order, then `stop = none` for
normal exhaustion or `stop = some e` when iteration raises `e`. -/
structure GenRun (R : Type) where
  yields : List R
  stop : Option PyErr
deriving DecidableEq, Repr

/-! ## `fasted/idmemo.py` -/

/-- The `IdMemo` from `fasted/idmemo.py`: the field `_hash` is
`self._hash: int | None` and `_value` is `self._value: TMemo | None`,
where a stored Python value is itself possibly `None` — Python cannot
distinguish "never stored" from "stored `None`", and neither does the
model: `_value = Option.none` covers both. -/
structure IdMemo (W : Type) where
  _hash : Option Int
  _value : Option W
deriving DecidableEq, Repr

namespace IdMemo

variable {W : Type}

/-- The `IdMemo.__init__`: both slots start as `None`. -/
def init : IdMemo W := ⟨none, none⟩

/-- The `IdMemo.__contains__`: `self._hash == key`.  (`None == key` is `False`
in Python, hence the `some` on the right.) -/
def contains (m : IdMemo W) (key : Int) : Bool :=
  m._hash == some key

/-- The `IdMemo.value`: raises `KeyError` when `self._value is None`, else
returns the stored value. -/
def value (m : IdMemo W) : Except PyErr W :=
  match m._value with
  | none => .error .emptyMemo
  | some v => .ok v

/-- The `IdMemo.store`: sets both slots and returns the received value.  The
second argument of the returned pair is the updated memo state. -/
def store (_m : IdMemo W) (key : Int) (v : Option W) : Option W × IdMemo W :=
  (v, { _hash := some key, _value := v })

end IdMemo

/-! ### CPython hashing, needed for `IdMemo.hash`

`IdMemo.hash` is `hash(tuple(id(i) for i in items))`.  The `id` of each item
is a nonnegative machine integer (modelled as `Nat`); hashing that integer
uses CPython's `hash(int)`, which reduces modulo `2^61 - 1`; the tuple hash
is CPython's xxHash-style combiner (`tuplehash` in `Objects/tupleobject.c`,
64-bit build), computed modulo `2^64` and finally reinterpreted as a signed
64-bit integer with the `-1 -> 1546275796` fixup. -/

/-- The `_PyHASH_MODULUS` on a 64-bit build. -/
def pyHashModulus : Nat := 2 ^ 61 - 1

/-- CPython `hash(n)` for a nonnegative integer `n`. -/
def pyIntHash (n : Nat) : Nat := n % pyHashModulus

/-- Constant 2^64, the modulus of `Py_uhash_t` arithmetic. -/
def u64 : Nat := 2 ^ 64

/-- The `_PyHASH_XXPRIME_1`. -/
def xxPrime1 : Nat := 11400714785074694791

/-- The `_PyHASH_XXPRIME_2`. -/
def xxPrime2 : Nat := 14029467366897019727

/-- The `_PyHASH_XXPRIME_5`. -/
def xxPrime5 : Nat := 2870177450012600261

/-- The `_PyHASH_XXROTATE(x) = (x << 31) | (x >> 33)` on 64 bits; for
`x < 2^64` the two parts occupy disjoint bit ranges, so `+` is the same
as bitwise or. -/
def xxRotate (x : Nat) : Nat := (x * 2 ^ 31) % u64 + x / 2 ^ 33

/-- One lane of CPython's tuple hash loop:
`acc += lane * P2; acc = ROTATE(acc); acc *= P1` (mod 2^64). -/
def tupleHashStep (acc lane : Nat) : Nat :=
  (xxRotate ((acc + lane * xxPrime2) % u64) * xxPrime1) % u64

/-- CPython `tuplehash`, unsigned: fold the lanes, then add
`len ^ (P5 ^ 3527539)` (mod 2^64). -/
def pyTupleHashU (lanes : List Nat) : Nat :=
  (lanes.foldl tupleHashStep xxPrime5
    + Nat.xor lanes.length (Nat.xor xxPrime5 3527539)) % u64

/-- Reinterpret an unsigned 64-bit value as signed. -/
def toSigned64 (a : Nat) : Int :=
  if a < 2 ^ 63 then (a : Int) else (a : Int) - (u64 : Int)

/-- CPython `tuplehash`, signed, with the `(Py_uhash_t)-1` fixup. -/
def pyTupleHash (lanes : List Nat) : Int :=
  let acc := pyTupleHashU lanes
  if acc = u64 - 1 then 1546275796 else toSigned64 acc

/-- The `IdMemo.hash`: `hash(tuple(id(i) for i in items))`, taking the items'
identities (the results of `id`) directly. -/
def IdMemo.hashKey (ids : List Nat) : Int :=
  pyTupleHash (ids.map pyIntHash)

/-! ## `SelfWrapper` (`fasted/selfdependent.py`) -/

namespace SelfWrapper

variable {V A R : Type}

/-- The owner-resolution step shared by all four wrapper bodies:
`func_self = kwargs.pop("self") if "self" in kwargs else owner`.
Returns the resolved owner (a possibly-`None` Python value) and the
keyword dict to forward (with the `"self"` entry popped when present). -/
def popOwner (kwargs : Kwargs V) (owner : Option V) : Option V × Kwargs V :=
  match kwargs.find? (fun p => p.1 == "self") with
  | some p => (p.2, kwargs.filter (fun q => q.1 != "self"))
  | none => (owner, kwargs)

/-- The `SelfWrapper.sync_method`: `sync_method func owner` is the wrapper
closure `do`; its body runs at call time: resolve the owner, raise
`RuntimeError` if it is `None`, else call `func` with it prepended. -/
def sync_method (func : V → A → Kwargs V → Except PyErr R) (owner : Option V)
    (args : A) (kwargs : Kwargs V) : Except PyErr R :=
  match popOwner kwargs owner with
  | (none, _) => .error .missingOwner
  | (some s, kw) => func s args kw

/-- The body of the generator object returned by
`SelfWrapper.sync_generator`'s wrapper: on first iteration it resolves the
owner, raises on `None`, else `yield from func(func_self, *args, **kwargs)`
(the wrapped generator's yields and terminal behaviour, its return value
discarded). -/
def sync_generator_run (func : V → A → Kwargs V → GenRun R) (owner : Option V)
    (args : A) (kwargs : Kwargs V) : GenRun R :=
  match popOwner kwargs owner with
  | (none, _) => ⟨[], some .missingOwner⟩
  | (some s, kw) => func s args kw

/-- The `SelfWrapper.sync_generator`: the wrapper `do` is itself a generator
function, so the call itself only creates the generator object — it never
raises; everything happens on iteration. -/
def sync_generator (func : V → A → Kwargs V → GenRun R) (owner : Option V)
    (args : A) (kwargs : Kwargs V) : Except PyErr (GenRun R) :=
  .ok (sync_generator_run func owner args kwargs)

/-- The awaited outcome of the coroutine returned by
`SelfWrapper.async_method`'s wrapper: resolve the owner, raise on `None`,
else await `func(func_self, *args, **kwargs)`. -/
def async_method_await (func : V → A → Kwargs V → Except PyErr R)
    (owner : Option V) (args : A) (kwargs : Kwargs V) : Except PyErr R :=
  match popOwner kwargs owner with
  | (none, _) => .error .missingOwner
  | (some s, kw) => func s args kw

/-- The `SelfWrapper.async_method`: the wrapper `do` is an `async def`, so the
call itself only creates the coroutine object; the body runs when awaited. -/
def async_method (func : V → A → Kwargs V → Except PyErr R) (owner : Option V)
    (args : A) (kwargs : Kwargs V) : Except PyErr (Except PyErr R) :=
  .ok (async_method_await func owner args kwargs)

/-- The body of the async generator returned by
`SelfWrapper.async_generator`'s wrapper: resolve the owner on first
iteration, raise on `None`, else forward every value of
`func(func_self, *args, **kwargs)` in order. -/
def async_generator_run (func : V → A → Kwargs V → GenRun R) (owner : Option V)
    (args : A) (kwargs : Kwargs V) : GenRun R :=
  match popOwner kwargs owner with
  | (none, _) => ⟨[], some .missingOwner⟩
  | (some s, kw) => func s args kw

/-- The `SelfWrapper.async_generator`: calling the wrapper only creates the
async generator object; it never raises at the call itself. -/
def async_generator (func : V → A → Kwargs V → GenRun R) (owner : Option V)
    (args : A) (kwargs : Kwargs V) : Except PyErr (GenRun R) :=
  .ok (async_generator_run func owner args kwargs)

end SelfWrapper

/-! ## Parameter metadata and `replace_self_signature` (`fasted/utils.py`) -/

/-- The annotation of an `inspect.Parameter`.  External callables (the
optional factory and the declaring type) are referred to by identity
handles (`Nat`).  `annotatedDepends ty src` is
`Annotated[ty, Depends(src)]`; any other annotation is `other tag`. -/
inductive PAnn where
  | other (tag : Nat)
  | annotatedDepends (ty : Nat) (src : Nat)
deriving DecidableEq, Repr

/-- The `inspect.Parameter`: name, kind and annotation. -/
structure Param where
  name : String
  kind : Nat
  annotation : PAnn
deriving DecidableEq, Repr

/-- The `inspect.Parameter.POSITIONAL_OR_KEYWORD`. -/
def POSITIONAL_OR_KEYWORD : Nat := 1

/-- The `replace_self_signature` from `fasted/utils.py`, at the level of the
ordered parameter list it rewrites: raise `ValueError` when no parameter
is named `"self"`, else the new parameter list is `self_param` followed by
every non-`"self"` parameter in original order.  (In the source the list
is written to `func.__signature__`; the wrapper definitions below carry
the signature as data.) -/
def replace_self_signature (sig : List Param) (self_param : Param) :
    Except PyErr (List Param) :=
  if sig.any (fun p => p.name == "self") then
    .ok (self_param :: sig.filter (fun p => p.name != "self"))
  else
    .error .noSelfParam

/-! ## `SelfDependent` (`fasted/selfdependent.py`) -/

/-- A wrapped Python function together with its calling-convention shape,
as discriminated by the `inspect.isgeneratorfunction` /
`inspect.isasyncgenfunction` / `asyncio.iscoroutinefunction` chain in
`SelfDependent.__get__` (the four predicates are mutually exclusive on
actual Python functions, so a tagged union is faithful).  Each carries the
function's signature (`inspect.signature`) and its behaviour. -/
inductive PyFunc (V A R : Type) where
  | plainF (sig : List Param) (f : V → A → Kwargs V → Except PyErr R)
  | syncGenF (sig : List Param) (f : V → A → Kwargs V → GenRun R)
  | coroF (sig : List Param) (f : V → A → Kwargs V → Except PyErr R)
  | asyncGenF (sig : List Param) (f : V → A → Kwargs V → GenRun R)

/-- The signature of a wrapped function. -/
def PyFunc.sig {V A R : Type} : PyFunc V A R → List Param
  | .plainF s _ => s
  | .syncGenF s _ => s
  | .coroF s _ => s
  | .asyncGenF s _ => s

/-- The callable part of a wrapper produced by `SelfWrapper`, one
constructor per shape.  The outer `Except` of each call is what the call
expression itself does; for the generator and coroutine shapes its `ok`
payload is the deferred behaviour (see the module comment). -/
inductive WrapperCall (V A R : Type) where
  | plainW (call : A → Kwargs V → Except PyErr R)
  | syncGenW (call : A → Kwargs V → Except PyErr (GenRun R))
  | coroW (call : A → Kwargs V → Except PyErr (Except PyErr R))
  | asyncGenW (call : A → Kwargs V → Except PyErr (GenRun R))

/-- A wrapper object: its exposed signature (`functools.wraps` copies the
wrapped function's, `replace_self_signature` then overwrites it) and its
callable behaviour. -/
structure Wrapper (V A R : Type) where
  sig : List Param
  call : WrapperCall V A R

/-- The `SelfDependent`: the descriptor state — wrapped function, optional
factory (an identity handle to an external callable, `none` when absent)
and the single-slot memo. -/
structure SelfDependent (V A R : Type) where
  _wrapped : PyFunc V A R
  _factory : Option Nat
  _memo : IdMemo (Wrapper V A R)

/-- The `selfdependent(factory)(func)` (`fasted/selfdependent.py`): pure
construction of a `SelfDependent` with a fresh memo; no validation. -/
def selfdependent {V A R : Type} (factory : Option Nat) (func : PyFunc V A R) :
    SelfDependent V A R :=
  { _wrapped := func, _factory := factory, _memo := IdMemo.init }

/-- The `SelfDependent.__get__`: compute the identity key of
`(owner, obj_type)`; on a hit return the memoised wrapper; on a miss build
the shape-matching `SelfWrapper` with the accessing instance as the owner
override, rewrite its `"self"` parameter to
`Annotated[obj_type, Depends(self._factory or obj_type)]`, store it and
return it.  The returned pair is (call outcome, descriptor state after the
access); a raise leaves the state unchanged. -/
def SelfDependent.get {V A R : Type} (d : SelfDependent V A R)
    (ownerId : Nat) (owner : Option V) (typeId : Nat) :
    Except PyErr (Wrapper V A R) × SelfDependent V A R :=
  let memo := d._memo
  let hcurrent := IdMemo.hashKey [ownerId, typeId]
  if memo.contains hcurrent then
    match memo.value with
    | .error e => (.error e, d)
    | .ok w => (.ok w, d)
  else
    let result : Wrapper V A R :=
      match d._wrapped with
      | .syncGenF sig g => ⟨sig, .syncGenW (SelfWrapper.sync_generator g owner)⟩
      | .asyncGenF sig g => ⟨sig, .asyncGenW (SelfWrapper.async_generator g owner)⟩
      | .coroF sig c => ⟨sig, .coroW (SelfWrapper.async_method c owner)⟩
      | .plainF sig f => ⟨sig, .plainW (SelfWrapper.sync_method f owner)⟩
    let self_param : Param :=
      ⟨"self", POSITIONAL_OR_KEYWORD,
        PAnn.annotatedDepends typeId (d._factory.getD typeId)⟩
    match replace_self_signature result.sig self_param with
    | .error e => (.error e, d)
    | .ok sig2 =>
      let result2 : Wrapper V A R := { result with sig := sig2 }
      let stored := IdMemo.store memo hcurrent (some result2)
      (.ok result2, { d with _memo := stored.2 })

/-! ## Wrapper-level theorems -/

/-- When the keyword dict has no `"self"` entry, owner resolution falls back
to the owner bound at wrapper construction and forwards the dict unchanged. -/
theorem SelfWrapper.popOwner_of_no_self {V : Type} (kwargs : Kwargs V)
    (owner : Option V) (h : kwargs.find? (fun p => p.1 == "self") = none) :
    SelfWrapper.popOwner kwargs owner = (owner, kwargs) := by
  unfold SelfWrapper.popOwner
  rw [h]

/-- When the keyword dict has a `"self"` entry, owner resolution consumes it:
the entry's value becomes the owner and the forwarded dict drops the key. -/
theorem SelfWrapper.popOwner_of_self {V : Type} (kwargs : Kwargs V)
    (owner v : Option V)
    (h : kwargs.find? (fun p => p.1 == "self") = some ("self", v)) :
    SelfWrapper.popOwner kwargs owner =
      (v, kwargs.filter (fun q => q.1 != "self")) := by
  unfold SelfWrapper.popOwner
  rw [h]

/-- Claim C2: a wrapper built with owner override `o`, invoked on any
argument list (whose keyword dict, drawn from the wrapper's parameter
space, has no `"self"` entry), behaves identically to calling the wrapped
function directly with `o` prepended — for all four shapes: Plain result,
SyncGenerator element sequence in order, Coroutine eventual result,
AsyncGenerator element sequence in order; in particular errors raised by
the wrapped function propagate unchanged. -/
theorem c2_owner_override_refines_direct_call {V A R : Type}
    (f : V → A → Kwargs V → Except PyErr R)
    (g : V → A → Kwargs V → GenRun R)
    (c : V → A → Kwargs V → Except PyErr R)
    (ag : V → A → Kwargs V → GenRun R)
    (o : V) (args : A) (kwargs : Kwargs V)
    (h : kwargs.find? (fun p => p.1 == "self") = none) :
    SelfWrapper.sync_method f (some o) args kwargs = f o args kwargs
    ∧ SelfWrapper.sync_generator g (some o) args kwargs = .ok (g o args kwargs)
    ∧ SelfWrapper.async_method c (some o) args kwargs = .ok (c o args kwargs)
    ∧ SelfWrapper.async_generator ag (some o) args kwargs
        = .ok (ag o args kwargs) := by
  have hp : ∀ ow : Option V, SelfWrapper.popOwner kwargs ow = (ow, kwargs) :=
    fun ow => SelfWrapper.popOwner_of_no_self kwargs ow h
  refine ⟨?_, ?_, ?_, ?_⟩ <;>
    simp [SelfWrapper.sync_method, SelfWrapper.sync_generator,
      SelfWrapper.sync_generator_run, SelfWrapper.async_method,
      SelfWrapper.async_method_await, SelfWrapper.async_generator,
      SelfWrapper.async_generator_run, hp]

/-- Concrete wrapped functions used by the wrapper-level witnesses. -/
def wfPlain : Nat → Nat → Kwargs Nat → Except PyErr Nat :=
  fun s a _ => .ok (s + a)

/-- Concrete wrapped sync-generator behaviour. -/
def wfGen : Nat → Nat → Kwargs Nat → GenRun Nat :=
  fun s a _ => ⟨[s, s * a], none⟩

/-- Concrete wrapped coroutine behaviour (raises a user error). -/
def wfCoro : Nat → Nat → Kwargs Nat → Except PyErr Nat :=
  fun _ _ _ => .error (.user 42)

/-- Concrete wrapped async-generator behaviour. -/
def wfAGen : Nat → Nat → Kwargs Nat → GenRun Nat :=
  fun s _ _ => ⟨[s], some (.user 7)⟩

/-- Witness for C2 at concrete inputs (owner 3, positional 4, one unrelated
keyword). -/
theorem c2_witness :
    SelfWrapper.sync_method wfPlain (some 3) 4 [("mul", some 7)]
        = wfPlain 3 4 [("mul", some 7)]
    ∧ SelfWrapper.sync_generator wfGen (some 3) 4 [("mul", some 7)]
        = .ok (wfGen 3 4 [("mul", some 7)])
    ∧ SelfWrapper.async_method wfCoro (some 3) 4 [("mul", some 7)]
        = .ok (wfCoro 3 4 [("mul", some 7)])
    ∧ SelfWrapper.async_generator wfAGen (some 3) 4 [("mul", some 7)]
        = .ok (wfAGen 3 4 [("mul", some 7)]) :=
  c2_owner_override_refines_direct_call wfPlain wfGen wfCoro wfAGen 3 4
    [("mul", some 7)] rfl

/-- Claim C3: for every wrapper of any of the four shapes constructed with
bound owner `o`, a call whose keyword dict carries an explicit
`self = X` (a non-`None` value `x`) uses `x` as the owner instead of `o`,
and the `"self"` key is removed from the keyword arguments passed on to the
wrapped function. -/
theorem c3_self_keyword_override {V A R : Type}
    (f : V → A → Kwargs V → Except PyErr R)
    (g : V → A → Kwargs V → GenRun R)
    (c : V → A → Kwargs V → Except PyErr R)
    (ag : V → A → Kwargs V → GenRun R)
    (o x : V) (args : A) (kwargs : Kwargs V)
    (h : kwargs.find? (fun p => p.1 == "self") = some ("self", some x)) :
    SelfWrapper.sync_method f (some o) args kwargs
        = f x args (kwargs.filter (fun q => q.1 != "self"))
    ∧ SelfWrapper.sync_generator g (some o) args kwargs
        = .ok (g x args (kwargs.filter (fun q => q.1 != "self")))
    ∧ SelfWrapper.async_method c (some o) args kwargs
        = .ok (c x args (kwargs.filter (fun q => q.1 != "self")))
    ∧ SelfWrapper.async_generator ag (some o) args kwargs
        = .ok (ag x args (kwargs.filter (fun q => q.1 != "self"))) := by
  have hp : ∀ ow : Option V, SelfWrapper.popOwner kwargs ow
      = (some x, kwargs.filter (fun q => q.1 != "self")) :=
    fun ow => SelfWrapper.popOwner_of_self kwargs ow (some x) h
  refine ⟨?_, ?_, ?_, ?_⟩ <;>
    simp [SelfWrapper.sync_method, SelfWrapper.sync_generator,
      SelfWrapper.sync_generator_run, SelfWrapper.async_method,
      SelfWrapper.async_method_await, SelfWrapper.async_generator,
      SelfWrapper.async_generator_run, hp]

/-- Witness for C3: bound owner 3, overriding `self = 10`. -/
theorem c3_witness :
    SelfWrapper.sync_method wfPlain (some 3) 4 [("self", some 10), ("mul", some 7)]
        = wfPlain 10 4 [("mul", some 7)]
    ∧ SelfWrapper.sync_generator wfGen (some 3) 4 [("self", some 10), ("mul", some 7)]
        = .ok (wfGen 10 4 [("mul", some 7)])
    ∧ SelfWrapper.async_method wfCoro (some 3) 4 [("self", some 10), ("mul", some 7)]
        = .ok (wfCoro 10 4 [("mul", some 7)])
    ∧ SelfWrapper.async_generator wfAGen (some 3) 4 [("self", some 10), ("mul", some 7)]
        = .ok (wfAGen 10 4 [("mul", some 7)]) :=
  c3_self_keyword_override wfPlain wfGen wfCoro wfAGen 3 10 4
    [("self", some 10), ("mul", some 7)] rfl

/-- Counterexample to claim C1 as stated: a SyncGenerator-shape wrapper
constructed with no owner override, called with no `"self"` keyword, does
NOT fail at the call itself — the call succeeds and returns a generator
object; the `MissingOwnerError` only surfaces on first iteration (it is the
`stop` of the returned run, after zero yields). -/
theorem c1_counterexample :
    SelfWrapper.sync_generator wfGen none 4 [] = .ok ⟨[], some .missingOwner⟩
    ∧ SelfWrapper.sync_generator wfGen none 4 [] ≠ .error .missingOwner :=
  ⟨rfl, fun hcontra => Except.noConfusion hcontra⟩

/-- Claim C1, amended: for every wrapper built with no owner override and
called without a `"self"` keyword, `MissingOwnerError` is raised before any
wrapped user code runs — at the call itself for the Plain shape, but only
upon first iteration (SyncGenerator, AsyncGenerator) or upon awaiting
(Coroutine) for the deferred shapes, whose call expression itself succeeds.
The right-hand sides below never mention the wrapped functions, so no user
code contributes. -/
theorem c1_missing_owner_before_user_code {V A R : Type}
    (f : V → A → Kwargs V → Except PyErr R)
    (g : V → A → Kwargs V → GenRun R)
    (c : V → A → Kwargs V → Except PyErr R)
    (ag : V → A → Kwargs V → GenRun R)
    (args : A) (kwargs : Kwargs V)
    (h : kwargs.find? (fun p => p.1 == "self") = none) :
    SelfWrapper.sync_method f none args kwargs = .error .missingOwner
    ∧ SelfWrapper.sync_generator g none args kwargs
        = .ok ⟨[], some .missingOwner⟩
    ∧ SelfWrapper.sync_generator_run g none args kwargs
        = ⟨[], some .missingOwner⟩
    ∧ SelfWrapper.async_method c none args kwargs
        = .ok (.error .missingOwner)
    ∧ SelfWrapper.async_method_await c none args kwargs
        = .error .missingOwner
    ∧ SelfWrapper.async_generator ag none args kwargs
        = .ok ⟨[], some .missingOwner⟩
    ∧ SelfWrapper.async_generator_run ag none args kwargs
        = ⟨[], some .missingOwner⟩ := by
  have hp : ∀ ow : Option V, SelfWrapper.popOwner kwargs ow = (ow, kwargs) :=
    fun ow => SelfWrapper.popOwner_of_no_self kwargs ow h
  refine ⟨?_, ?_, ?_, ?_, ?_, ?_, ?_⟩ <;>
    simp [SelfWrapper.sync_method, SelfWrapper.sync_generator,
      SelfWrapper.sync_generator_run, SelfWrapper.async_method,
      SelfWrapper.async_method_await, SelfWrapper.async_generator,
      SelfWrapper.async_generator_run, hp]

/-- Witness for the amended C1 at concrete inputs. -/
theorem c1_witness :
    SelfWrapper.sync_method wfPlain none 4 [("mul", some 7)]
        = .error .missingOwner
    ∧ SelfWrapper.sync_generator wfGen none 4 [("mul", some 7)]
        = .ok ⟨[], some .missingOwner⟩
    ∧ SelfWrapper.sync_generator_run wfGen none 4 [("mul", some 7)]
        = ⟨[], some .missingOwner⟩
    ∧ SelfWrapper.async_method wfCoro none 4 [("mul", some 7)]
        = .ok (.error .missingOwner)
    ∧ SelfWrapper.async_method_await wfCoro none 4 [("mul", some 7)]
        = .error .missingOwner
    ∧ SelfWrapper.async_generator wfAGen none 4 [("mul", some 7)]
        = .ok ⟨[], some .missingOwner⟩
    ∧ SelfWrapper.async_generator_run wfAGen none 4 [("mul", some 7)]
        = ⟨[], some .missingOwner⟩ :=
  c1_missing_owner_before_user_code wfPlain wfGen wfCoro wfAGen 4
    [("mul", some 7)] rfl

/-- Claim C10: for every wrapper of any shape constructed with a non-`None`
bound owner, explicitly passing `self = None` makes the call fail with
`MissingOwnerError` (at the point the wrapper body runs): the supplied
`None` is consumed and does not fall back to the bound owner. -/
theorem c10_none_self_keyword_fails {V A R : Type}
    (f : V → A → Kwargs V → Except PyErr R)
    (g : V → A → Kwargs V → GenRun R)
    (c : V → A → Kwargs V → Except PyErr R)
    (ag : V → A → Kwargs V → GenRun R)
    (o : V) (args : A) (kwargs : Kwargs V)
    (h : kwargs.find? (fun p => p.1 == "self") = some ("self", none)) :
    SelfWrapper.sync_method f (some o) args kwargs = .error .missingOwner
    ∧ SelfWrapper.sync_generator_run g (some o) args kwargs
        = ⟨[], some .missingOwner⟩
    ∧ SelfWrapper.async_method_await c (some o) args kwargs
        = .error .missingOwner
    ∧ SelfWrapper.async_generator_run ag (some o) args kwargs
        = ⟨[], some .missingOwner⟩ := by
  have hp : ∀ ow : Option V, SelfWrapper.popOwner kwargs ow
      = (none, kwargs.filter (fun q => q.1 != "self")) :=
    fun ow => SelfWrapper.popOwner_of_self kwargs ow none h
  refine ⟨?_, ?_, ?_, ?_⟩ <;>
    simp [SelfWrapper.sync_method, SelfWrapper.sync_generator_run,
      SelfWrapper.async_method_await, SelfWrapper.async_generator_run, hp]

/-- Witness for C10: bound owner 3, explicit `self = None`. -/
theorem c10_witness :
    SelfWrapper.sync_method wfPlain (some 3) 4 [("self", none)]
        = .error .missingOwner
    ∧ SelfWrapper.sync_generator_run wfGen (some 3) 4 [("self", none)]
        = ⟨[], some .missingOwner⟩
    ∧ SelfWrapper.async_method_await wfCoro (some 3) 4 [("self", none)]
        = .error .missingOwner
    ∧ SelfWrapper.async_generator_run wfAGen (some 3) 4 [("self", none)]
        = ⟨[], some .missingOwner⟩ :=
  c10_none_self_keyword_fails wfPlain wfGen wfCoro wfAGen 3 4
    [("self", none)] rfl

/-! ## IdMemo theorems -/

/-- Run a sequence of `store` calls against a fresh memo (the only mutating
operation; `contains`, `value` and `hash` do not change state). -/
def IdMemo.runStores {W : Type} (ops : List (Int × Option W)) : IdMemo W :=
  ops.foldl (fun m op => (IdMemo.store m op.1 op.2).2) IdMemo.init

/-- The value carried by the most recent store in a sequence, with `d` as
the result when the sequence is empty. -/
def lastStoredValueD {W : Type} (d : Option W) (ops : List (Int × Option W)) :
    Option W :=
  match ops.getLast? with
  | none => d
  | some p => p.2

/-- The value carried by the most recent store, `none` when there was none
(indistinguishable, as in Python, from a most recent store of `None`). -/
def lastStoredValue {W : Type} (ops : List (Int × Option W)) : Option W :=
  lastStoredValueD none ops

/-- After any run of stores, the `_value` slot holds exactly the most
recently stored value. -/
theorem IdMemo.runStores_value {W : Type} (ops : List (Int × Option W)) :
    (IdMemo.runStores ops)._value = lastStoredValue ops := by
  suffices hgen : ∀ (m : IdMemo W),
      (ops.foldl (fun m op => (IdMemo.store m op.1 op.2).2) m)._value
        = lastStoredValueD m._value ops from hgen IdMemo.init
  induction ops with
  | nil => intro m; rfl
  | cons op rest ih =>
    intro m
    have hstep := ih (IdMemo.store m op.1 op.2).2
    cases rest with
    | nil => exact hstep
    | cons op2 t =>
      simpa [lastStoredValueD, IdMemo.store, List.getLast?_cons_cons]
        using hstep

/-- Counterexample to claim C5 as stated: `value` does not fail "iff no
store has ever been made" — after storing the Python value `None`
(one store has been made), reading `value` still fails with
`EmptyMemoError`, because the code tests `self._value is None`, not whether
a store happened. -/
theorem c5_counterexample :
    ¬ (∀ (ops : List (Int × Option Nat)),
        (IdMemo.runStores ops).value = .error .emptyMemo ↔ ops = []) := by
  intro hclaim
  have h2 := (hclaim [(0, none)]).mp rfl
  exact List.noConfusion h2

/-- Claim C5, amended: reading `value` fails with `EmptyMemoError` iff the
most recently stored value is `None` (in particular when no store was ever
made, the initial state); after any `store(key, v)` with `v` not `None`,
reading `value` succeeds and returns `v`. -/
theorem c5_value_iff_last_store {W : Type} (ops : List (Int × Option W))
    (w : W) :
    ((IdMemo.runStores ops).value = .error .emptyMemo
      ↔ lastStoredValue ops = none)
    ∧ (lastStoredValue ops = some w
      → (IdMemo.runStores ops).value = .ok w) := by
  have hv := IdMemo.runStores_value (W := W) ops
  constructor
  · constructor
    · intro h
      by_contra hne
      obtain ⟨x, hx⟩ := Option.ne_none_iff_exists'.mp hne
      rw [IdMemo.value, hv, hx] at h
      exact Except.noConfusion h
    · intro h
      rw [IdMemo.value, hv, h]
  · intro h
    rw [IdMemo.value, hv, h]

/-- Witness for the amended C5: one store of `5`, then a read. -/
theorem c5_witness :
    (((IdMemo.runStores [((2 : Int), some (5 : Nat))]).value
        = .error .emptyMemo)
      ↔ lastStoredValue [((2 : Int), some (5 : Nat))] = none)
    ∧ (lastStoredValue [((2 : Int), some (5 : Nat))] = some 5
      → (IdMemo.runStores [((2 : Int), some (5 : Nat))]).value = .ok 5) :=
  c5_value_iff_last_store [((2 : Int), some (5 : Nat))] 5

/-- Claim C6: `store(k, v)` returns exactly `v` unchanged, and afterwards
`contains(k2)` holds iff `k2 = k` — whatever the previous single entry was,
it is evicted unconditionally (the memo state after the store does not
depend on the state before it, so it never holds more than one entry). -/
theorem c6_store_returns_and_evicts {W : Type} (m m2 : IdMemo W)
    (k k2 : Int) (v : Option W) :
    (IdMemo.store m k v).1 = v
    ∧ (IdMemo.contains (IdMemo.store m k v).2 k2 = true ↔ k2 = k)
    ∧ (IdMemo.store m k v).2 = (IdMemo.store m2 k v).2 := by
  refine ⟨rfl, ?_, rfl⟩
  simp only [IdMemo.store, IdMemo.contains, Option.some.injEq, beq_iff_eq]
  exact eq_comm

/-! ### C7: the identity key -/

/-- Counterexample to claim C7 as stated: two accesses on distinct
(instance, type) identity pairs need not yield distinct keys.  CPython's
`hash(int)` reduces modulo `2^61 - 1`, so an instance with id `1` and an
instance with id `2^61` (distinct objects, distinct ids) produce the same
key against the same type id. -/
theorem c7_counterexample :
    IdMemo.hashKey [1, 7] = IdMemo.hashKey [2 ^ 61, 7]
    ∧ (1 : Nat) ≠ 2 ^ 61 := by
  constructor
  · decide
  · decide

/-- Claim C7, amended: `computeKey` is a pure function of the identity list
— two calls whose arguments are pairwise identity-equal, in the same order,
yield equal keys; but distinct (instance, type) identity pairs may collide
(e.g. instance ids congruent modulo `2^61 - 1`), a known limitation. -/
theorem c7_key_equality :
    (∀ (i1 t1 i2 t2 : Nat), i1 = i2 → t1 = t2 →
        IdMemo.hashKey [i1, t1] = IdMemo.hashKey [i2, t2])
    ∧ IdMemo.hashKey [1, 7] = IdMemo.hashKey [2 ^ 61, 7] := by
  refine ⟨?_, by decide⟩
  intro i1 t1 i2 t2 hi ht
  rw [hi, ht]

/-- Witness for the amended C7, applying it at concrete identity pairs. -/
theorem c7_witness :
    IdMemo.hashKey [3, 9] = IdMemo.hashKey [3, 9] :=
  c7_key_equality.1 3 9 3 9 rfl rfl

/-! ## Descriptor theorems -/

/-- A fresh memo contains no key. -/
theorem IdMemo.contains_init {W : Type} (k : Int) :
    IdMemo.contains (IdMemo.init : IdMemo W) k = false := rfl

/-- On a hit whose slot holds `w`, `__get__` returns `w` and leaves the
descriptor state unchanged. -/
theorem SelfDependent.get_of_hit {V A R : Type} (d : SelfDependent V A R)
    (i : Nat) (o : Option V) (t : Nat) (w : Wrapper V A R)
    (hc : IdMemo.contains d._memo (IdMemo.hashKey [i, t]) = true)
    (hv : IdMemo.value d._memo = .ok w) :
    SelfDependent.get d i o t = (.ok w, d) := by
  simp [SelfDependent.get, hc, hv]

/-- After any successful `__get__`, the resulting descriptor's memo
contains the access key and its slot holds exactly the returned wrapper. -/
theorem SelfDependent.get_ok_state {V A R : Type} (d d1 : SelfDependent V A R)
    (i : Nat) (o : Option V) (t : Nat) (w : Wrapper V A R)
    (h : SelfDependent.get d i o t = (.ok w, d1)) :
    IdMemo.contains d1._memo (IdMemo.hashKey [i, t]) = true
    ∧ IdMemo.value d1._memo = .ok w := by
  simp only [SelfDependent.get, IdMemo.store] at h
  split at h
  · next hc =>
    split at h
    · next e heq => exact Except.noConfusion (congrArg Prod.fst h)
    · next w0 heq =>
      rw [Prod.mk.injEq] at h
      obtain ⟨h1, h2⟩ := h
      rw [Except.ok.injEq] at h1
      subst h2
      subst h1
      exact ⟨hc, heq⟩
  · next hc =>
    split at h
    · next e heq => exact Except.noConfusion (congrArg Prod.fst h)
    · next sig2 heq =>
      rw [Prod.mk.injEq] at h
      obtain ⟨h1, h2⟩ := h
      rw [Except.ok.injEq] at h1
      subst h2
      subst h1
      constructor
      · simp [IdMemo.contains]
      · simp [IdMemo.value]

/-- Claim C4: if a descriptor access with identity pair `(i, t)` succeeds
with wrapper `w` and post-state `d1`, then an immediately following access
with the same pair is a cache hit (the key is in the memo before the second
access), returns the very same wrapper `w`, and leaves the state unchanged
— no wrapper is rebuilt and no metadata recomputed. -/
theorem c4_repeated_access_identity {V A R : Type}
    (d d1 : SelfDependent V A R) (i : Nat) (o : Option V) (t : Nat)
    (w : Wrapper V A R)
    (h : SelfDependent.get d i o t = (.ok w, d1)) :
    IdMemo.contains d1._memo (IdMemo.hashKey [i, t]) = true
    ∧ SelfDependent.get d1 i o t = (.ok w, d1) := by
  obtain ⟨h1, h2⟩ := SelfDependent.get_ok_state d d1 i o t w h
  exact ⟨h1, SelfDependent.get_of_hit d1 i o t w h1 h2⟩

/-- A `"self"` parameter with an uninteresting annotation. -/
def pSelf : Param := ⟨"self", POSITIONAL_OR_KEYWORD, .other 0⟩

/-- A `"mul"` parameter with an uninteresting annotation. -/
def pMul : Param := ⟨"mul", POSITIONAL_OR_KEYWORD, .other 1⟩

/-- A concrete Plain-shape wrapped method with signature `(self, mul)`. -/
def c4wrapped : PyFunc Nat Nat Nat := .plainF [pSelf, pMul] wfPlain

/-- A concrete descriptor over `c4wrapped`, no factory, fresh memo. -/
def c4d0 : SelfDependent Nat Nat Nat := selfdependent none c4wrapped

/-- The wrapper the first access on `c4d0` with instance id 5 (value 3) and
type id 9 builds: rewritten signature, owner override `some 3`. -/
def c4w : Wrapper Nat Nat Nat :=
  ⟨[⟨"self", POSITIONAL_OR_KEYWORD, .annotatedDepends 9 9⟩, pMul],
    .plainW (SelfWrapper.sync_method wfPlain (some 3))⟩

/-- The descriptor state after that first access: the memo holds the key
of `(5, 9)` and the built wrapper. -/
def c4d1 : SelfDependent Nat Nat Nat :=
  ⟨c4wrapped, none, ⟨some (IdMemo.hashKey [5, 9]), some c4w⟩⟩

/-- Witness for C4: a concrete first access (a miss that stores), then the
theorem gives that the second access is a hit returning the same wrapper
with unchanged state. -/
theorem c4_witness :
    IdMemo.contains c4d1._memo (IdMemo.hashKey [5, 9]) = true
    ∧ SelfDependent.get c4d1 5 (some 3) 9 = (.ok c4w, c4d1) :=
  c4_repeated_access_identity c4d0 c4d1 5 (some 3) 9 c4w rfl

/-! ### C8: the metadata rewrite contract -/

/-- Observe the exposed signature of a `__get__` outcome (only defined for
a returned wrapper). -/
def sigOf {V A R : Type} (x : Except PyErr (Wrapper V A R)) :
    Option (List Param) :=
  match x with
  | .ok w => some w.sig
  | .error _ => none

/-- Modelled from the spec's words, for comparison with the code (claim
C8): replace the `"self"` parameter IN PLACE, leaving every parameter at
its original position. -/
def replaceSelfInPlace (sig : List Param) (p : Param) : List Param :=
  sig.map (fun q => if q.name == "self" then p else q)

/-- On a parameter list with no `"self"`, the rewrite's filter and the
in-place map both act as the identity. -/
theorem no_self_filter_map (l : List Param) (p : Param)
    (h : l.any (fun q => q.name == "self") = false) :
    l.filter (fun q => q.name != "self") = l
    ∧ l.map (fun q => if q.name == "self" then p else q) = l := by
  induction l with
  | nil => exact ⟨rfl, rfl⟩
  | cons a tl ih =>
    simp only [List.any_cons, Bool.or_eq_false_iff] at h
    obtain ⟨h1, h2⟩ := h
    obtain ⟨ihf, ihm⟩ := ih h2
    have hba : (a.name != "self") = true := by
      simp [bne, h1]
    refine ⟨?_, ?_⟩
    · rw [List.filter_cons, hba]
      simp only [if_true, ihf]
    · rw [List.map_cons, ihm, h1]
      simp only [Bool.false_eq_true, if_false]

/-- Parameters used by the C8 concrete inputs: one before `self`. -/
def c8pa : Param := ⟨"a", POSITIONAL_OR_KEYWORD, .other 2⟩

/-- Parameter after `self`. -/
def c8pb : Param := ⟨"b", POSITIONAL_OR_KEYWORD, .other 3⟩

/-- A descriptor whose wrapped method has signature `(a, self, b)`:
`"self"` is present but not first. -/
def c8d : SelfDependent Nat Nat Nat :=
  selfdependent none (.plainF [c8pa, pSelf, c8pb] wfPlain)

/-- The rewritten `"self"` parameter built by `__get__` for type id 9 and
no factory: injectable from the declaring type itself. -/
def c8selfParam : Param :=
  ⟨"self", POSITIONAL_OR_KEYWORD, .annotatedDepends 9 9⟩

/-- Counterexample to claim C8 as stated: on a wrapped function with
signature `(a, self, b)`, the wrapper exposed on a cache miss carries
`[self, a, b]` — the rewritten `"self"` parameter is moved to the front —
which differs from metadata "identical except the self parameter is
replaced" (in place), i.e. `[a, self, b]`. -/
theorem c8_counterexample :
    sigOf (SelfDependent.get c8d 0 (some 0) 9).1
        = some [c8selfParam, c8pa, c8pb]
    ∧ replaceSelfInPlace [c8pa, pSelf, c8pb] c8selfParam
        = [c8pa, c8selfParam, c8pb]
    ∧ some [c8selfParam, c8pa, c8pb] ≠ some [c8pa, c8selfParam, c8pb] := by
  refine ⟨rfl, rfl, ?_⟩
  decide

/-- Claim C8, amended: on a cache miss over a wrapped function having a
`"self"` parameter, the returned wrapper exposes the rewritten `"self"`
parameter — positional-or-keyword, annotated as injectable from the
supplied factory, or from the declaring type itself when no factory was
supplied — placed FIRST, followed by all other parameters unchanged and in
their original relative order; when `"self"` is the wrapped function's
first parameter this coincides with in-place replacement. -/
theorem c8_metadata_rewrite {V A R : Type} (d : SelfDependent V A R)
    (i : Nat) (o : Option V) (t : Nat)
    (hmiss : IdMemo.contains d._memo (IdMemo.hashKey [i, t]) = false)
    (hself : d._wrapped.sig.any (fun p => p.name == "self") = true) :
    sigOf (SelfDependent.get d i o t).1
      = some (⟨"self", POSITIONAL_OR_KEYWORD,
            PAnn.annotatedDepends t (d._factory.getD t)⟩
          :: d._wrapped.sig.filter (fun p => p.name != "self"))
    ∧ (∀ (p0 : Param) (rest : List Param), d._wrapped.sig = p0 :: rest
        → p0.name = "self"
        → rest.any (fun p => p.name == "self") = false
        → sigOf (SelfDependent.get d i o t).1
          = some (replaceSelfInPlace d._wrapped.sig
              ⟨"self", POSITIONAL_OR_KEYWORD,
                PAnn.annotatedDepends t (d._factory.getD t)⟩)) := by
  have hfst : sigOf (SelfDependent.get d i o t).1
      = some (⟨"self", POSITIONAL_OR_KEYWORD,
            PAnn.annotatedDepends t (d._factory.getD t)⟩
          :: d._wrapped.sig.filter (fun p => p.name != "self")) := by
    cases hw : d._wrapped with
    | plainF sig f =>
      rw [hw] at hself
      simp only [PyFunc.sig] at hself ⊢
      simp [SelfDependent.get, hmiss, hw, replace_self_signature, hself,
        sigOf, PyFunc.sig]
    | syncGenF sig f =>
      rw [hw] at hself
      simp only [PyFunc.sig] at hself ⊢
      simp [SelfDependent.get, hmiss, hw, replace_self_signature, hself,
        sigOf, PyFunc.sig]
    | coroF sig f =>
      rw [hw] at hself
      simp only [PyFunc.sig] at hself ⊢
      simp [SelfDependent.get, hmiss, hw, replace_self_signature, hself,
        sigOf, PyFunc.sig]
    | asyncGenF sig f =>
      rw [hw] at hself
      simp only [PyFunc.sig] at hself ⊢
      simp [SelfDependent.get, hmiss, hw, replace_self_signature, hself,
        sigOf, PyFunc.sig]
  refine ⟨hfst, ?_⟩
  intro p0 rest hsig hname hrest
  obtain ⟨hfil, hmap⟩ := no_self_filter_map rest
    ⟨"self", POSITIONAL_OR_KEYWORD, PAnn.annotatedDepends t (d._factory.getD t)⟩
    hrest
  have hp0t : (p0.name == "self") = true := by
    simp [hname]
  have hp0f : (p0.name != "self") = false := by
    simp [bne, hname]
  have hfc : List.filter (fun p => p.name != "self") (p0 :: rest) = rest := by
    rw [List.filter_cons, hp0f]
    simp only [Bool.false_eq_true, if_false, hfil]
  have hrip : replaceSelfInPlace (p0 :: rest)
      ⟨"self", POSITIONAL_OR_KEYWORD, PAnn.annotatedDepends t (d._factory.getD t)⟩
      = ⟨"self", POSITIONAL_OR_KEYWORD, PAnn.annotatedDepends t (d._factory.getD t)⟩
        :: rest := by
    rw [replaceSelfInPlace, List.map_cons, hmap, hp0t]
    simp only [if_true]
  rw [hfst, hsig, hfc, hrip]

/-- Witness for the amended C8 on the concrete `(a, self, b)` descriptor. -/
theorem c8_witness :
    sigOf (SelfDependent.get c8d 0 (some 0) 9).1
      = some (⟨"self", POSITIONAL_OR_KEYWORD,
            PAnn.annotatedDepends 9 (c8d._factory.getD 9)⟩
          :: c8d._wrapped.sig.filter (fun p => p.name != "self")) :=
  (c8_metadata_rewrite c8d 0 (some 0) 9 rfl rfl).1

/-! ### C9: NoSelfParameterError -/

/-- Claim C9: decoration itself performs no validation — `selfdependent`
is pure construction even when the method has no `"self"` parameter; the
error surfaces lazily: the first descriptor access (a miss on the fresh
memo) fails with `NoSelfParameterError`, raised during the metadata
rewrite, leaving the descriptor (in particular its memo) unchanged — and
no access on a descriptor whose wrapped function has a `"self"` parameter
ever yields that error. -/
theorem c9_no_self_parameter_lazy {V A R : Type} (factory : Option Nat)
    (f : PyFunc V A R) (d : SelfDependent V A R)
    (i : Nat) (o : Option V) (t : Nat)
    (hnoself : f.sig.any (fun p => p.name == "self") = false)
    (hself : d._wrapped.sig.any (fun p => p.name == "self") = true) :
    selfdependent factory f
        = { _wrapped := f, _factory := factory, _memo := IdMemo.init }
    ∧ SelfDependent.get (selfdependent factory f) i o t
        = (.error .noSelfParam, selfdependent factory f)
    ∧ (SelfDependent.get d i o t).1 ≠ .error .noSelfParam := by
  refine ⟨rfl, ?_, ?_⟩
  · cases hw : f with
    | plainF sig fn =>
      rw [hw] at hnoself
      simp only [PyFunc.sig] at hnoself
      simp [SelfDependent.get, selfdependent, IdMemo.contains_init, hw,
        replace_self_signature, hnoself]
    | syncGenF sig fn =>
      rw [hw] at hnoself
      simp only [PyFunc.sig] at hnoself
      simp [SelfDependent.get, selfdependent, IdMemo.contains_init, hw,
        replace_self_signature, hnoself]
    | coroF sig fn =>
      rw [hw] at hnoself
      simp only [PyFunc.sig] at hnoself
      simp [SelfDependent.get, selfdependent, IdMemo.contains_init, hw,
        replace_self_signature, hnoself]
    | asyncGenF sig fn =>
      rw [hw] at hnoself
      simp only [PyFunc.sig] at hnoself
      simp [SelfDependent.get, selfdependent, IdMemo.contains_init, hw,
        replace_self_signature, hnoself]
  · by_cases hc : IdMemo.contains d._memo (IdMemo.hashKey [i, t]) = true
    · cases hmv : d._memo._value with
      | none =>
        have hv : IdMemo.value d._memo = .error .emptyMemo := by
          simp [IdMemo.value, hmv]
        simp [SelfDependent.get, hc, hv]
      | some w =>
        have hv : IdMemo.value d._memo = .ok w := by
          simp [IdMemo.value, hmv]
        simp [SelfDependent.get, hc, hv]
    · rw [Bool.not_eq_true] at hc
      cases hw : d._wrapped with
      | plainF sig fn =>
        rw [hw] at hself
        simp only [PyFunc.sig] at hself
        simp [SelfDependent.get, hc, hw, replace_self_signature, hself]
      | syncGenF sig fn =>
        rw [hw] at hself
        simp only [PyFunc.sig] at hself
        simp [SelfDependent.get, hc, hw, replace_self_signature, hself]
      | coroF sig fn =>
        rw [hw] at hself
        simp only [PyFunc.sig] at hself
        simp [SelfDependent.get, hc, hw, replace_self_signature, hself]
      | asyncGenF sig fn =>
        rw [hw] at hself
        simp only [PyFunc.sig] at hself
        simp [SelfDependent.get, hc, hw, replace_self_signature, hself]

/-- A wrapped method with no `"self"` parameter, for the C9 witness. -/
def c9noSelf : PyFunc Nat Nat Nat := .plainF [c8pa, c8pb] wfPlain

/-- Witness for C9 at concrete inputs: decoration of a self-less method
succeeds, its first access fails with `NoSelfParameterError` leaving the
fresh state, and the access on the `(a, self, b)` descriptor does not
yield that error. -/
theorem c9_witness :
    selfdependent (some 4) c9noSelf
        = { _wrapped := c9noSelf, _factory := some 4, _memo := IdMemo.init }
    ∧ SelfDependent.get (selfdependent (some 4) c9noSelf) 0 (some 0) 9
        = (.error .noSelfParam, selfdependent (some 4) c9noSelf)
    ∧ (SelfDependent.get c8d 0 (some 0) 9).1 ≠ .error .noSelfParam :=
  c9_no_self_parameter_lazy (some 4) c9noSelf c8d 0 (some 0) 9 rfl rfl

end Fasted
